import Mathlib

/-!
Shallow embedding of the xwiimote-lua binding (xwiilua.c and the xwii Pd-Lua
object) together with proofs about its device-session and poll/dispatch logic.

The C wrapper keeps a fixed table `devh[NDEV]` of device handles.  Each handle
stores the xwiimote interface, a pollable file descriptor, and the cached
motion samples.  External library calls (monitor enumeration, interface
creation/opening, LED and battery reads, the kernel event queue) are modelled
by explicit oracle parameters: enumeration is a list of device path strings,
the kernel event queue is a list of decoded dispatch results, and fallible
library calls are Booleans / Options describing their outcome.
-/

set_option autoImplicit false

namespace Xwiilua

/-- `NDEV` from xwiilua.c: the maximum number of devices. -/
def NDEV : Nat := 10

/-- Interface capability bits from xwiimote.h (external collaborator). -/
def XWII_IFACE_CORE : Nat := 1

def XWII_IFACE_ACCEL : Nat := 2

def XWII_IFACE_IR : Nat := 4

def XWII_IFACE_MOTION_PLUS : Nat := 256

def XWII_IFACE_NUNCHUK : Nat := 512

def XWII_IFACE_CLASSIC_CONTROLLER : Nat := 1024

def XWII_IFACE_BALANCE_BOARD : Nat := 2048

def XWII_IFACE_PRO_CONTROLLER : Nat := 4096

def XWII_IFACE_WRITABLE : Nat := 65536

/-- Numeric value of the `XWII_EVENT_GONE` event type (xwiimote.h). -/
def XWII_EVENT_GONE : Nat := 16

/-- `POLLIN` event flag stored in `fds[0].events`. -/
def POLLIN : Nat := 1

/-- `struct xwii_event_abs`: one absolute-motion sample. -/
structure Abs where
  x : Int
  y : Int
  z : Int
deriving DecidableEq

/-- The all-zero sample, the result of `memset(..., 0, ...)`. -/
def Abs.zero : Abs := ⟨0, 0, 0⟩

/-- The state of one `struct xwii_iface`: which interfaces the device reports
as available (`xwii_iface_available`) and which are currently open
(`xwii_iface_opened`). -/
structure Iface where
  available : Nat
  opened : Nat
deriving DecidableEq

/-- `devhandle` from xwiilua.c: one slot of the device table.  `iface` is
always present (the C struct holds a raw pointer which is garbage while the
slot is closed); `fds_num` is 1 iff the slot is open; `fd`/`fdEvents` model
`fds[0]`.  The remaining fields are the cached motion samples. -/
structure DevHandle where
  iface : Iface
  fds_num : Nat
  fd : Int
  fdEvents : Nat
  accel : Abs
  motion : Abs
  nunchuk_accel : Abs
  nunchuk_stick : Abs
  ir0 : Abs
  ir1 : Abs
  ir2 : Abs
  ir3 : Abs
  pro0 : Abs
  pro1 : Abs
  board0 : Abs
  board1 : Abs
  board2 : Abs
  board3 : Abs
deriving DecidableEq

/-- A slot whose fields are all zero: the initial state of the static
`devh` array. -/
def DevHandle.init : DevHandle :=
  ⟨⟨0, 0⟩, 0, 0, 0, Abs.zero, Abs.zero, Abs.zero, Abs.zero, Abs.zero,
   Abs.zero, Abs.zero, Abs.zero, Abs.zero, Abs.zero, Abs.zero, Abs.zero,
   Abs.zero, Abs.zero⟩

/-- The device table `devh`, indexed by slot (0-based).  Indices ≥ NDEV are
never touched by the operations, which all range-check first. -/
def DevTable : Type := Nat → DevHandle

/-- Write one slot of the table. -/
def setSlot (t : DevTable) (i : Nat) (h : DevHandle) : DevTable :=
  fun j => if j = i then h else t j

/-- 0-based slot index for a 1-based Lua handle `num` (`devh[num-1]`). -/
def slotIdx (num : Int) : Nat := (num - 1).toNat

/-- Which case label of the key-event switch produced a key event. -/
inductive KeySrc where
  | core
  | classic
  | pro
  | nunchuk
  | drums
  | guitar
deriving DecidableEq

/-- One result of a call to `xwii_iface_dispatch`: either a decoded event
(one constructor per case of the switch in `l_xwii_poll`, carrying the fields
that case reads) or a decode error other than `-EAGAIN`.  The empty queue
models `-EAGAIN`.  The `watch` item carries the outcome of the renegotiation
(`xwii_iface_open` succeeding or failing) and the availability mask it
requests. -/
inductive DispItem where
  | key (src : KeySrc) (code state : Nat)
  | watch (reopenOk : Bool) (avail : Nat)
  | gone
  | accel (a : Abs)
  | irEv (a0 a1 a2 a3 : Abs)
  | balanceBoard (a0 a1 a2 a3 : Abs)
  | classicMove (a0 a1 : Abs)
  | proMove (a0 a1 : Abs)
  | motionPlus (a : Abs)
  | nunchukMove (a0 a1 : Abs)
  | other
  | decodeErr
deriving DecidableEq

/-- What `l_xwii_poll` pushes back to Lua: a key-event table, the integer
event type of a removal event, or nil. -/
inductive PollResult where
  | key (code state : Nat)
  | goneSignal (etype : Nat)
  | noEvent
deriving DecidableEq

/-- Items on which the dispatch loop keeps draining (hotplug, motion samples,
unrecognized events), as opposed to key events, removal, and decode errors,
which stop the loop. -/
def DispItem.continuesDrain : DispItem → Bool
  | .key _ _ _ => false
  | .gone => false
  | .decodeErr => false
  | _ => true

/-- The effect of one drain-continuing dispatch item on the handle state
(the motion-cache writes and the hotplug renegotiation of `l_xwii_poll`);
identity on the loop-stopping items. -/
def stepH (h : DevHandle) : DispItem → DevHandle
  | .watch ok avail =>
      if ok then { h with iface := ⟨avail, h.iface.opened ||| avail⟩ } else h
  | .accel a => { h with accel := a }
  | .irEv a0 a1 a2 a3 => { h with ir0 := a0, ir1 := a1, ir2 := a2, ir3 := a3 }
  | .balanceBoard a0 a1 a2 a3 =>
      { h with board0 := a0, board1 := a1, board2 := a2, board3 := a3 }
  | .classicMove a0 a1 => { h with pro0 := a0, pro1 := a1 }
  | .proMove a0 a1 => { h with pro0 := a0, pro1 := a1 }
  | .motionPlus a => { h with motion := a }
  | .nunchukMove a0 a1 => { h with nunchuk_accel := a1, nunchuk_stick := a0 }
  | _ => h

/-- The `while (1)` dispatch loop of `l_xwii_poll`: repeatedly take the next
dispatch result, stop on a key event (returning its code/state), on a removal
event (invalidating the slot and returning the event type), on a decode error
or on the empty queue (returning nil); otherwise apply the event to the
handle state and continue.  Returns the final handle state, the result, and
the queue that remains for later calls. -/
def drain : DevHandle → List DispItem → DevHandle × PollResult × List DispItem
  | h, [] => (h, .noEvent, [])
  | h, .decodeErr :: rest => (h, .noEvent, rest)
  | h, .key _ c s :: rest => (h, .key c s, rest)
  | h, .gone :: rest =>
      ({ h with fd := -1, fdEvents := 0, fds_num := 0 },
       .goneSignal XWII_EVENT_GONE, rest)
  | h, .watch ok avail :: rest =>
      drain (if ok then { h with iface := ⟨avail, h.iface.opened ||| avail⟩ } else h) rest
  | h, .accel a :: rest => drain { h with accel := a } rest
  | h, .irEv a0 a1 a2 a3 :: rest =>
      drain { h with ir0 := a0, ir1 := a1, ir2 := a2, ir3 := a3 } rest
  | h, .balanceBoard a0 a1 a2 a3 :: rest =>
      drain { h with board0 := a0, board1 := a1, board2 := a2, board3 := a3 } rest
  | h, .classicMove a0 a1 :: rest => drain { h with pro0 := a0, pro1 := a1 } rest
  | h, .proMove a0 a1 :: rest => drain { h with pro0 := a0, pro1 := a1 } rest
  | h, .motionPlus a :: rest => drain { h with motion := a } rest
  | h, .nunchukMove a0 a1 :: rest =>
      drain { h with nunchuk_accel := a1, nunchuk_stick := a0 } rest
  | h, .other :: rest => drain h rest

/-- Outcome of the blocking `poll(2)` call: readiness, interruption
(`errno == EINTR`), or another wait failure carrying its errno. -/
inductive WaitRes where
  | ready
  | interrupted
  | waitErr (e : Int)
deriving DecidableEq

/-- `l_xwii_poll`: range-check and open-check the handle; wait on the
descriptor; on any negative wait result return nil (logging only when the
errno is not EINTR — the Boolean component records whether the wait error
was logged); on readiness run the dispatch loop.  Returns the new table, the
Lua result, the remaining kernel queue, and the wait-error log flag. -/
def l_xwii_poll (t : DevTable) (num : Int) (w : WaitRes) (q : List DispItem) :
    DevTable × PollResult × List DispItem × Bool :=
  if 1 ≤ num ∧ num ≤ (NDEV : Int) ∧ (t (slotIdx num)).fds_num ≠ 0 then
    match w with
    | .interrupted => (t, .noEvent, q, false)
    | .waitErr _ => (t, .noEvent, q, true)
    | .ready =>
        let r := drain (t (slotIdx num)) q
        (setSlot t (slotIdx num) r.1, r.2.1, r.2.2, false)
  else
    (t, .noEvent, q, false)

/-- `n` successive calls of `l_xwii_poll` with a ready descriptor, threading
the table and the remaining queue, collecting the results. -/
def pollSeq (t : DevTable) (num : Int) (q : List DispItem) : Nat → List PollResult
  | 0 => []
  | n + 1 =>
      let r := l_xwii_poll t num .ready q
      r.2.1 :: pollSeq r.1 num r.2.2.1 n

/-- `l_xwii_info`: the available-interface bitmask for an open handle,
0 for a closed or out-of-range handle. -/
def l_xwii_info (t : DevTable) (num : Int) : Nat :=
  if 1 ≤ num ∧ num ≤ (NDEV : Int) ∧ (t (slotIdx num)).fds_num ≠ 0 then
    (t (slotIdx num)).iface.available
  else
    0

/-- A Lua return value of the auxiliary query functions: an integer or nil. -/
inductive LuaRet where
  | int (n : Int)
  | nil
deriving DecidableEq

/-- `l_xwii_get_battery`.  `readRes` models the outcome of
`xwii_iface_get_battery`: `some capacity` on success, `none` on a transport
error.  A closed or out-of-range handle yields the integer 0; a transport
error on an open handle yields nil (after logging). -/
def l_xwii_get_battery (t : DevTable) (num : Int) (readRes : Option Nat) : LuaRet :=
  if 1 ≤ num ∧ num ≤ (NDEV : Int) ∧ (t (slotIdx num)).fds_num ≠ 0 then
    match readRes with
    | some capacity => .int capacity
    | none => .nil
  else
    .int 0

/-- The `for` loop of `l_xwii_get_leds`: read LED `i+1` through `i+n`
(0-based `i`), accumulating the bitmask; a failing read aborts the whole
query.  `readLed i` models `xwii_iface_get_led` on `XWII_LED(i+1)`. -/
def getLedsLoop (readLed : Nat → Option Bool) : Nat → Nat → Nat → Option Nat
  | _, 0, mask => some mask
  | i, n + 1, mask =>
      match readLed i with
      | none => none
      | some flag =>
          getLedsLoop readLed (i + 1) n (if flag then mask ||| (1 <<< i) else mask)

/-- `l_xwii_get_leds`: 0 for a closed or out-of-range handle; otherwise the
accumulated bitmask, or nil (after logging) when any single read fails. -/
def l_xwii_get_leds (t : DevTable) (num : Int) (readLed : Nat → Option Bool) : LuaRet :=
  if 1 ≤ num ∧ num ≤ (NDEV : Int) ∧ (t (slotIdx num)).fds_num ≠ 0 then
    match getLedsLoop readLed 0 4 0 with
    | some mask => .int mask
    | none => .nil
  else
    .int 0

/-- The device-side state of the four LEDs, index 0..3 for `XWII_LED(1..4)`. -/
def LedVec : Type := Nat → Bool

/-- The `for` loop of `l_xwii_set_leds`: write LED `i+1` through `i+n` from
the bitmask; `failsAt i` models `xwii_iface_set_led` failing on
`XWII_LED(i+1)`, which leaves that LED unchanged, logs, and returns at once.
Returns the device LED state and whether a failure was reported. -/
def setLedsLoop (mask : Nat) (failsAt : Nat → Bool) : Nat → Nat → LedVec → LedVec × Bool
  | _, 0, leds => (leds, false)
  | i, n + 1, leds =>
      if failsAt i then (leds, true)
      else
        setLedsLoop mask failsAt (i + 1) n
          (fun j => if j = i then mask.testBit i else leds j)

/-- `l_xwii_set_leds`: on an open in-range handle, run the write loop over
the four LEDs; otherwise do nothing. -/
def l_xwii_set_leds (t : DevTable) (num : Int) (mask : Nat) (failsAt : Nat → Bool)
    (leds : LedVec) : LedVec × Bool :=
  if 1 ≤ num ∧ num ≤ (NDEV : Int) ∧ (t (slotIdx num)).fds_num ≠ 0 then
    setLedsLoop mask failsAt 0 4 leds
  else
    (leds, false)

/-- The `while ((ent = xwii_monitor_poll(mon)))` collection loop of
`l_xwii_list`, given the entries the monitor will yield. -/
def monitorCollect : List String → List String
  | [] => []
  | e :: rest => e :: monitorCollect rest

/-- `l_xwii_list`.  `monOk` models `xwii_monitor_new` succeeding.  On failure
the function logs and returns no value at all (`return 0`, i.e. nil to the
Lua caller); on success it returns the table of every enumerated device
path.  The Boolean component records whether the failure was logged. -/
def l_xwii_list (monOk : Bool) (entries : List String) :
    Option (List String) × Bool :=
  if monOk then (some (monitorCollect entries), false) else (none, true)

/-- The `while` loop of `get_dev`: pre-increment a counter for each entry
and stop at the entry whose count equals `num`; when the monitor runs dry
first, the result is NULL. -/
def get_devLoop : List String → Int → Int → Option String
  | [], _, _ => none
  | e :: rest, i, num => if i + 1 = num then some e else get_devLoop rest (i + 1) num

/-- `get_dev`: the `num`-th (1-based) enumerated device path, or `none` when
the monitor cannot be created or yields fewer than `num` entries. -/
def get_dev (monOk : Bool) (devs : List String) (num : Int) : Option String :=
  if monOk then get_devLoop devs 0 num else none

/-- Outcomes of the external library calls made by `l_xwii_open`:
monitor creation (inside `get_dev`), `xwii_iface_new` (`newOk`; on success
the fresh interface reports `avail` as its available mask), `xwii_iface_open`
(`openErr`), `xwii_iface_watch` (`watchErr`, non-fatal, log only) and
`xwii_iface_get_fd` (`fd`). -/
structure OpenOracle where
  monOk : Bool
  newOk : Bool
  avail : Nat
  openErr : Bool
  watchErr : Bool
  fd : Int
deriving DecidableEq

/-- Resource-ownership events of one `l_xwii_open` call: acquisition of the
interface by `xwii_iface_new` and its release by `xwii_iface_unref`. -/
inductive ResEv where
  | allocIface
  | freeIface
deriving DecidableEq

/-- `l_xwii_open`: fail (returning 0) when `num` is out of `[1, NDEV]`, when
`get_dev` finds no `num`-th device, when the slot is already open, or when
`xwii_iface_new` fails — all without acquiring anything.  When
`xwii_iface_open` fails, the freshly created interface (already stored in the
slot's `iface` field) is released again and the slot stays closed.  On
success: the interface is opened at `avail | XWII_IFACE_WRITABLE`, the watch
failure is only logged, the `accel`, `motion`, `nunchuk_accel` and
`nunchuk_stick` caches and `fds` are zeroed, the descriptor is recorded, the
slot is marked open, and `num` is returned.  The third component is the
resource trace. -/
def l_xwii_open (t : DevTable) (num : Int) (devs : List String) (o : OpenOracle) :
    DevTable × Int × List ResEv :=
  if num < 1 ∨ (NDEV : Int) < num ∨ get_dev o.monOk devs num = none then
    (t, 0, [])
  else if (t (slotIdx num)).fds_num ≠ 0 then
    (t, 0, [])
  else if o.newOk = false then
    (t, 0, [])
  else if o.openErr then
    (setSlot t (slotIdx num) { t (slotIdx num) with iface := ⟨o.avail, 0⟩ },
     0, [.allocIface, .freeIface])
  else
    (setSlot t (slotIdx num)
      { t (slotIdx num) with
        iface := ⟨o.avail, o.avail ||| XWII_IFACE_WRITABLE⟩,
        accel := Abs.zero, motion := Abs.zero,
        nunchuk_accel := Abs.zero, nunchuk_stick := Abs.zero,
        fd := o.fd, fdEvents := POLLIN, fds_num := 1 },
     num, [.allocIface])

/-- `l_xwii_close`: on an open in-range handle, close and release the
interface and clear `fds_num`; otherwise a no-op.  The stale `iface` field
is left behind, exactly as the C leaves the dangling pointer. -/
def l_xwii_close (t : DevTable) (num : Int) : DevTable :=
  if 1 ≤ num ∧ num ≤ (NDEV : Int) ∧ (t (slotIdx num)).fds_num ≠ 0 then
    setSlot t (slotIdx num) { t (slotIdx num) with fds_num := 0 }
  else
    t

/-- `l_xwii_accel`: x, y, z of the cached accelerometer sample, gated on an
open slot with `XWII_IFACE_CORE` among the opened interfaces. -/
def l_xwii_accel (t : DevTable) (num : Int) : Option (List Int) :=
  if 1 ≤ num ∧ num ≤ (NDEV : Int) ∧ (t (slotIdx num)).fds_num ≠ 0 ∧
      (t (slotIdx num)).iface.opened &&& XWII_IFACE_CORE ≠ 0 then
    some [(t (slotIdx num)).accel.x, (t (slotIdx num)).accel.y,
          (t (slotIdx num)).accel.z]
  else
    none

/-- `l_xwii_ir`: the four cached IR points as x, y pairs, gated on
`XWII_IFACE_CORE`. -/
def l_xwii_ir (t : DevTable) (num : Int) : Option (List Int) :=
  if 1 ≤ num ∧ num ≤ (NDEV : Int) ∧ (t (slotIdx num)).fds_num ≠ 0 ∧
      (t (slotIdx num)).iface.opened &&& XWII_IFACE_CORE ≠ 0 then
    some [(t (slotIdx num)).ir0.x, (t (slotIdx num)).ir0.y,
          (t (slotIdx num)).ir1.x, (t (slotIdx num)).ir1.y,
          (t (slotIdx num)).ir2.x, (t (slotIdx num)).ir2.y,
          (t (slotIdx num)).ir3.x, (t (slotIdx num)).ir3.y]
  else
    none

/-- `l_xwii_motion_plus`: the cached gyroscope sample, gated on
`XWII_IFACE_MOTION_PLUS`. -/
def l_xwii_motion_plus (t : DevTable) (num : Int) : Option (List Int) :=
  if 1 ≤ num ∧ num ≤ (NDEV : Int) ∧ (t (slotIdx num)).fds_num ≠ 0 ∧
      (t (slotIdx num)).iface.opened &&& XWII_IFACE_MOTION_PLUS ≠ 0 then
    some [(t (slotIdx num)).motion.x, (t (slotIdx num)).motion.y,
          (t (slotIdx num)).motion.z]
  else
    none

/-- `l_xwii_nunchuk_accel`: the cached Nunchuk accelerometer sample, gated
on `XWII_IFACE_NUNCHUK`. -/
def l_xwii_nunchuk_accel (t : DevTable) (num : Int) : Option (List Int) :=
  if 1 ≤ num ∧ num ≤ (NDEV : Int) ∧ (t (slotIdx num)).fds_num ≠ 0 ∧
      (t (slotIdx num)).iface.opened &&& XWII_IFACE_NUNCHUK ≠ 0 then
    some [(t (slotIdx num)).nunchuk_accel.x, (t (slotIdx num)).nunchuk_accel.y,
          (t (slotIdx num)).nunchuk_accel.z]
  else
    none

/-- `l_xwii_nunchuk_stick`: the cached Nunchuk stick position, gated on
`XWII_IFACE_NUNCHUK`. -/
def l_xwii_nunchuk_stick (t : DevTable) (num : Int) : Option (List Int) :=
  if 1 ≤ num ∧ num ≤ (NDEV : Int) ∧ (t (slotIdx num)).fds_num ≠ 0 ∧
      (t (slotIdx num)).iface.opened &&& XWII_IFACE_NUNCHUK ≠ 0 then
    some [(t (slotIdx num)).nunchuk_stick.x, (t (slotIdx num)).nunchuk_stick.y]
  else
    none

/-- `l_xwii_pro_stick`: the two cached Classic/Pro joystick positions as
x, y pairs.  Note the gate tests `XWII_IFACE_CORE`, as the C does. -/
def l_xwii_pro_stick (t : DevTable) (num : Int) : Option (List Int) :=
  if 1 ≤ num ∧ num ≤ (NDEV : Int) ∧ (t (slotIdx num)).fds_num ≠ 0 ∧
      (t (slotIdx num)).iface.opened &&& XWII_IFACE_CORE ≠ 0 then
    some [(t (slotIdx num)).pro0.x, (t (slotIdx num)).pro0.y,
          (t (slotIdx num)).pro1.x, (t (slotIdx num)).pro1.y]
  else
    none

/-- `l_xwii_board`: the four cached balance-board weights (the x component
of each sample).  Note the gate tests `XWII_IFACE_CORE`, as the C does. -/
def l_xwii_board (t : DevTable) (num : Int) : Option (List Int) :=
  if 1 ≤ num ∧ num ≤ (NDEV : Int) ∧ (t (slotIdx num)).fds_num ≠ 0 ∧
      (t (slotIdx num)).iface.opened &&& XWII_IFACE_CORE ≠ 0 then
    some [(t (slotIdx num)).board0.x, (t (slotIdx num)).board1.x,
          (t (slotIdx num)).board2.x, (t (slotIdx num)).board3.x]
  else
    none

/-- The `board` message handler of the xwii Pd-Lua object (xwii.pd_lua):
it calls `xwii_pro_stick` — not `xwii_board` — and labels the result with
the `board` selector. -/
def in_1_board (t : DevTable) (d : Int) : Option (String × List Int) :=
  match l_xwii_pro_stick t d with
  | some v => some ("board", v)
  | none => none

/-! ## Helper lemmas about the dispatch loop -/

theorem setSlot_same (t : DevTable) (i : Nat) (h : DevHandle) : setSlot t i h i = h := by
  simp [setSlot]

theorem stepH_fds_num (h : DevHandle) (i : DispItem) :
    (stepH h i).fds_num = h.fds_num := by
  cases i
  all_goals simp only [stepH]
  all_goals (try split)
  all_goals rfl

theorem drain_cont_cons (h : DevHandle) (i : DispItem) (q : List DispItem)
    (hc : DispItem.continuesDrain i = true) :
    drain h (i :: q) = drain (stepH h i) q := by
  cases i <;> simp_all [DispItem.continuesDrain, drain, stepH]

theorem drain_cont_append (pre : List DispItem) (h : DevHandle) (q : List DispItem)
    (hc : ∀ i ∈ pre, DispItem.continuesDrain i = true) :
    drain h (pre ++ q) = drain (pre.foldl stepH h) q := by
  induction pre generalizing h with
  | nil => rfl
  | cons i pre ih =>
      rw [List.cons_append, drain_cont_cons h i _ (hc i (List.mem_cons_self i pre)),
          List.foldl_cons]
      exact ih (stepH h i) (fun j hj => hc j (List.mem_cons_of_mem _ hj))

theorem pollSeq_burst (num : Int) (src : KeySrc) (h1 : 1 ≤ num)
    (h2 : num ≤ (NDEV : Int)) (ks : List (Nat × Nat)) :
    ∀ t : DevTable, (t (slotIdx num)).fds_num ≠ 0 →
      pollSeq t num (ks.map fun p => DispItem.key src p.1 p.2) (ks.length + 1) =
        ks.map (fun p => PollResult.key p.1 p.2) ++ [PollResult.noEvent] := by
  induction ks with
  | nil =>
      intro t h3
      simp [pollSeq, l_xwii_poll, h1, h2, h3, drain]
  | cons p ks ih =>
      intro t h3
      have h3' : ((setSlot t (slotIdx num) (t (slotIdx num))) (slotIdx num)).fds_num ≠ 0 := by
        simpa [setSlot] using h3
      have hpoll : l_xwii_poll t num .ready
          (DispItem.key src p.1 p.2 :: ks.map fun q => DispItem.key src q.1 q.2) =
          (setSlot t (slotIdx num) (t (slotIdx num)), PollResult.key p.1 p.2,
           ks.map fun q => DispItem.key src q.1 q.2, false) := by
        rw [l_xwii_poll, if_pos ⟨h1, h2, h3⟩]
        simp [drain]
      rw [List.map_cons, List.length_cons, pollSeq, hpoll]
      simp only []
      rw [ih _ h3']
      simp

/-! ## Claim theorems -/

/-- Claim C1: a single poll call on an open session returns at most one key
event.  First conjunct: the dispatch loop drains any prefix of
cache-updating events and stops at the first key event, returning its
(code, state) pair and leaving the rest of the queue untouched.  Second
conjunct: a burst of N queued key events is retrieved by N sequential poll
calls each returning exactly one event, the (N+1)-th returning no event. -/
theorem xwii_poll_single_key_and_burst (t : DevTable) (num : Int) (src : KeySrc)
    (h1 : 1 ≤ num) (h2 : num ≤ (NDEV : Int)) (h3 : (t (slotIdx num)).fds_num ≠ 0) :
    (∀ (pre : List DispItem) (c s : Nat) (rest : List DispItem),
        (∀ i ∈ pre, DispItem.continuesDrain i = true) →
        (l_xwii_poll t num .ready (pre ++ DispItem.key src c s :: rest)).2.1 =
            PollResult.key c s ∧
        (l_xwii_poll t num .ready (pre ++ DispItem.key src c s :: rest)).2.2.1 = rest) ∧
    (∀ ks : List (Nat × Nat),
        pollSeq t num (ks.map fun p => DispItem.key src p.1 p.2) (ks.length + 1) =
          ks.map (fun p => PollResult.key p.1 p.2) ++ [PollResult.noEvent]) := by
  constructor
  · intro pre c s rest hpre
    rw [l_xwii_poll, if_pos ⟨h1, h2, h3⟩]
    rw [drain_cont_append pre _ _ hpre]
    simp [drain]
  · exact fun ks => pollSeq_burst num src h1 h2 ks t h3

/-- A concrete table whose first slot is open with the core interface. -/
def openTable : DevTable :=
  fun _ => { DevHandle.init with fds_num := 1, iface := ⟨1, 1⟩ }

theorem xwii_poll_single_key_and_burst_witness :
    pollSeq openTable 1 [DispItem.key .core 4 1] 2 =
      [PollResult.key 4 1, PollResult.noEvent] := by
  simpa using (xwii_poll_single_key_and_burst openTable 1 .core (by decide) (by decide)
    (by decide)).2 [(4, 1)]

/-- Claim C2: when poll decodes a device-removal event on an open session,
in that same call it clears the descriptor, marks the slot closed (so a
subsequent `l_xwii_info` query returns 0), returns the distinguished
device-gone signal with the rest of the queue preserved, and every later
poll on that handle returns no event without touching the queue — the
signal is surfaced exactly once and never dropped. -/
theorem xwii_poll_gone_invalidates (t : DevTable) (num : Int)
    (h1 : 1 ≤ num) (h2 : num ≤ (NDEV : Int)) (h3 : (t (slotIdx num)).fds_num ≠ 0)
    (pre rest : List DispItem) (hpre : ∀ i ∈ pre, DispItem.continuesDrain i = true) :
    (l_xwii_poll t num .ready (pre ++ DispItem.gone :: rest)).2.1 =
        PollResult.goneSignal XWII_EVENT_GONE ∧
    ((l_xwii_poll t num .ready (pre ++ DispItem.gone :: rest)).1 (slotIdx num)).fds_num
        = 0 ∧
    ((l_xwii_poll t num .ready (pre ++ DispItem.gone :: rest)).1 (slotIdx num)).fd
        = -1 ∧
    l_xwii_info (l_xwii_poll t num .ready (pre ++ DispItem.gone :: rest)).1 num = 0 ∧
    (l_xwii_poll t num .ready (pre ++ DispItem.gone :: rest)).2.2.1 = rest ∧
    (∀ (w : WaitRes) (q2 : List DispItem),
        l_xwii_poll (l_xwii_poll t num .ready (pre ++ DispItem.gone :: rest)).1 num w q2
          = ((l_xwii_poll t num .ready (pre ++ DispItem.gone :: rest)).1,
             PollResult.noEvent, q2, false)) := by
  have hout : l_xwii_poll t num .ready (pre ++ DispItem.gone :: rest) =
      (setSlot t (slotIdx num)
        { (pre.foldl stepH (t (slotIdx num))) with
          fd := -1, fdEvents := 0, fds_num := 0 },
       PollResult.goneSignal XWII_EVENT_GONE, rest, false) := by
    rw [l_xwii_poll, if_pos ⟨h1, h2, h3⟩, drain_cont_append pre _ _ hpre]
    rfl
  rw [hout]
  refine ⟨rfl, by simp [setSlot], by simp [setSlot], ?_, rfl, ?_⟩
  · simp [l_xwii_info, setSlot]
  · intro w q2
    rw [l_xwii_poll.eq_def]
    simp [setSlot]

theorem xwii_poll_gone_invalidates_witness :
    (l_xwii_poll openTable 1 .ready [DispItem.gone]).2.1 =
      PollResult.goneSignal XWII_EVENT_GONE := by
  simpa using (xwii_poll_gone_invalidates openTable 1 (by decide) (by decide) (by decide)
    [] [] (by simp)).1

/-- A table whose first slot is open with only the core interface opened,
but with stale Classic/Pro joystick and balance-board samples cached. -/
def coreOnlyTable : DevTable :=
  fun _ =>
    { DevHandle.init with
      fds_num := 1, iface := ⟨XWII_IFACE_CORE, XWII_IFACE_CORE⟩,
      pro0 := ⟨11, 12, 0⟩, pro1 := ⟨13, 14, 0⟩,
      board0 := ⟨21, 0, 0⟩, board1 := ⟨22, 0, 0⟩, board2 := ⟨23, 0, 0⟩,
      board3 := ⟨24, 0, 0⟩ }

/-- Claim C3 fails on the code: on an open slot whose opened-interface mask
has the Classic/Pro-controller and balance-board bits all unset, the
pro-stick and board accessors still return cached data instead of the
"unavailable" nil the claim requires, because both gate on
`XWII_IFACE_CORE` — contradicting the comments above them, which say they
require the Classic/Pro Controller and the Balance Board. -/
theorem accessor_capability_gating_bug :
    (coreOnlyTable (slotIdx 1)).iface.opened &&& XWII_IFACE_CLASSIC_CONTROLLER = 0 ∧
    (coreOnlyTable (slotIdx 1)).iface.opened &&& XWII_IFACE_PRO_CONTROLLER = 0 ∧
    (coreOnlyTable (slotIdx 1)).iface.opened &&& XWII_IFACE_BALANCE_BOARD = 0 ∧
    l_xwii_pro_stick coreOnlyTable 1 = some [11, 12, 13, 14] ∧
    l_xwii_board coreOnlyTable 1 = some [21, 22, 23, 24] := by
  decide

/-- The all-zero device table: the initial state of the static array. -/
def zeroTable : DevTable := fun _ => DevHandle.init

/-- An oracle under which every library call of `l_xwii_open` succeeds. -/
def openOracle1 : OpenOracle := ⟨true, true, XWII_IFACE_CORE, false, false, 7⟩

/-- The table after opening device 1 from the all-zero state. -/
def sessionAfterOpen : DevTable := (l_xwii_open zeroTable 1 ["dev0"] openOracle1).1

/-- The table after the session then polls one IR motion event. -/
def sessionAfterIr : DevTable :=
  (l_xwii_poll sessionAfterOpen 1 .ready
    [DispItem.irEv ⟨5, 6, 0⟩ Abs.zero Abs.zero Abs.zero]).1

/-- The table after that session is closed again. -/
def sessionAfterClose : DevTable := l_xwii_close sessionAfterIr 1

/-- Claim C4 is false at a concrete run: open device 1, record an IR sample
via poll, close, and re-open; the re-open succeeds but the new session's IR
cache still holds the previous session's sample instead of zero — the open
path only resets the accel, motion and Nunchuk caches. -/
theorem open_leaks_ir_cache :
    (l_xwii_open zeroTable 1 ["dev0"] openOracle1).2.1 = 1 ∧
    (sessionAfterIr (slotIdx 1)).ir0 = ⟨5, 6, 0⟩ ∧
    (sessionAfterClose (slotIdx 1)).fds_num = 0 ∧
    (l_xwii_open sessionAfterClose 1 ["dev0"] openOracle1).2.1 = 1 ∧
    ((l_xwii_open sessionAfterClose 1 ["dev0"] openOracle1).1 (slotIdx 1)).ir0 =
      ⟨5, 6, 0⟩ ∧
    (⟨5, 6, 0⟩ : Abs) ≠ Abs.zero := by
  decide

/-- Claim C4 amended: a successful open marks the slot open, returns the
index, and resets the accelerometer, Motion-Plus, Nunchuk-accelerometer and
Nunchuk-stick caches to zero, but leaves the four IR points, the two
Classic/Pro joystick positions and the four balance-board channels exactly
as the previous session left them, so those channels can leak stale
samples. -/
theorem open_resets_cache_partially (t : DevTable) (num : Int) (devs : List String)
    (o : OpenOracle)
    (h1 : ¬(num < 1 ∨ (NDEV : Int) < num ∨ get_dev o.monOk devs num = none))
    (h2 : (t (slotIdx num)).fds_num = 0)
    (h3 : o.newOk = true) (h4 : o.openErr = false) :
    (l_xwii_open t num devs o).2.1 = num ∧
    ((l_xwii_open t num devs o).1 (slotIdx num)).fds_num = 1 ∧
    ((l_xwii_open t num devs o).1 (slotIdx num)).accel = Abs.zero ∧
    ((l_xwii_open t num devs o).1 (slotIdx num)).motion = Abs.zero ∧
    ((l_xwii_open t num devs o).1 (slotIdx num)).nunchuk_accel = Abs.zero ∧
    ((l_xwii_open t num devs o).1 (slotIdx num)).nunchuk_stick = Abs.zero ∧
    ((l_xwii_open t num devs o).1 (slotIdx num)).ir0 = (t (slotIdx num)).ir0 ∧
    ((l_xwii_open t num devs o).1 (slotIdx num)).ir1 = (t (slotIdx num)).ir1 ∧
    ((l_xwii_open t num devs o).1 (slotIdx num)).ir2 = (t (slotIdx num)).ir2 ∧
    ((l_xwii_open t num devs o).1 (slotIdx num)).ir3 = (t (slotIdx num)).ir3 ∧
    ((l_xwii_open t num devs o).1 (slotIdx num)).pro0 = (t (slotIdx num)).pro0 ∧
    ((l_xwii_open t num devs o).1 (slotIdx num)).pro1 = (t (slotIdx num)).pro1 ∧
    ((l_xwii_open t num devs o).1 (slotIdx num)).board0 = (t (slotIdx num)).board0 ∧
    ((l_xwii_open t num devs o).1 (slotIdx num)).board1 = (t (slotIdx num)).board1 ∧
    ((l_xwii_open t num devs o).1 (slotIdx num)).board2 = (t (slotIdx num)).board2 ∧
    ((l_xwii_open t num devs o).1 (slotIdx num)).board3 = (t (slotIdx num)).board3 := by
  simp [l_xwii_open, h1, h2, h3, h4, setSlot]

theorem open_resets_cache_partially_witness :
    (l_xwii_open zeroTable 1 ["dev0"] openOracle1).2.1 = 1 :=
  (open_resets_cache_partially zeroTable 1 ["dev0"] openOracle1 (by decide) (by decide)
    (by decide) (by decide)).1

theorem get_devLoop_short (devs : List String) :
    ∀ i num : Int, i + devs.length < num → get_devLoop devs i num = none := by
  induction devs with
  | nil => intro i num _; rfl
  | cons e rest ih =>
      intro i num h
      rw [List.length_cons] at h
      push_cast at h
      rw [get_devLoop, if_neg (by omega)]
      exact ih (i + 1) num (by omega)

/-- An oracle under which `xwii_iface_new` succeeds but `xwii_iface_open`
fails. -/
def openFailOracle : OpenOracle := ⟨true, true, XWII_IFACE_CORE, true, false, 7⟩

/-- Claim C5: enumeration shorter than `num` makes `get_dev` fail (first
conjunct), and each failure path of `l_xwii_open` behaves as claimed:
out-of-range or unenumerated index, an already-open slot, and a failing
`xwii_iface_new` all return 0 with the table untouched and nothing acquired;
a failing `xwii_iface_open` returns 0, leaves the slot closed, and its
resource trace shows the acquired interface released again. -/
theorem open_failure_paths (t : DevTable) (num : Int) (devs : List String)
    (o : OpenOracle) :
    ((devs.length : Int) < num → get_dev o.monOk devs num = none) ∧
    ((num < 1 ∨ (NDEV : Int) < num ∨ get_dev o.monOk devs num = none) →
        l_xwii_open t num devs o = (t, 0, [])) ∧
    (¬(num < 1 ∨ (NDEV : Int) < num ∨ get_dev o.monOk devs num = none) →
      (t (slotIdx num)).fds_num ≠ 0 →
        l_xwii_open t num devs o = (t, 0, [])) ∧
    (¬(num < 1 ∨ (NDEV : Int) < num ∨ get_dev o.monOk devs num = none) →
      (t (slotIdx num)).fds_num = 0 → o.newOk = false →
        l_xwii_open t num devs o = (t, 0, [])) ∧
    (¬(num < 1 ∨ (NDEV : Int) < num ∨ get_dev o.monOk devs num = none) →
      (t (slotIdx num)).fds_num = 0 → o.newOk = true → o.openErr = true →
        (l_xwii_open t num devs o).2.1 = 0 ∧
        ((l_xwii_open t num devs o).1 (slotIdx num)).fds_num = 0 ∧
        (l_xwii_open t num devs o).2.2 = [ResEv.allocIface, ResEv.freeIface]) := by
  refine ⟨?_, ?_, ?_, ?_, ?_⟩
  · intro h
    unfold get_dev
    split
    · exact get_devLoop_short devs 0 num (by omega)
    · rfl
  · intro h; simp [l_xwii_open, h]
  · intro h h'; simp [l_xwii_open, h, h']
  · intro h h' h''; simp [l_xwii_open, h, h', h'']
  · intro h h' h'' h'''; simp [l_xwii_open, h, h', h'', h''', setSlot]

theorem open_failure_paths_witness :
    (l_xwii_open zeroTable 1 ["dev0"] openFailOracle).2.2 =
      [ResEv.allocIface, ResEv.freeIface] :=
  ((open_failure_paths zeroTable 1 ["dev0"] openFailOracle).2.2.2.2 (by decide)
    (by decide) (by decide) (by decide)).2.2

/-- Modelled from the spec for claim C6: a poll call whose wait step is
interrupted retries the wait transparently within the same call, i.e.
behaves as the call would with a ready descriptor. -/
def pollSpecRetryInterrupt (t : DevTable) (num : Int) (w : WaitRes)
    (q : List DispItem) : DevTable × PollResult × List DispItem × Bool :=
  match w with
  | .interrupted => l_xwii_poll t num .ready q
  | _ => l_xwii_poll t num w q

/-- Claim C6 is false at a concrete input: with a key event queued and the
wait interrupted, `l_xwii_poll` surfaces "no event" to the caller and leaves
the queue untouched — nothing is dispatched in that call — while the claimed
transparent retry would return the key event in the same call. -/
theorem interrupted_wait_not_retried :
    (l_xwii_poll openTable 1 .interrupted [DispItem.key .core 4 1]).2.1 =
      PollResult.noEvent ∧
    (l_xwii_poll openTable 1 .interrupted [DispItem.key .core 4 1]).2.2.1 =
      [DispItem.key .core 4 1] ∧
    (pollSpecRetryInterrupt openTable 1 .interrupted [DispItem.key .core 4 1]).2.1 =
      PollResult.key 4 1 ∧
    PollResult.noEvent ≠ PollResult.key 4 1 := by
  decide

/-- Claim C6 amended: an interrupted wait (EINTR) is not retried within the
call; it surfaces as "no event" without logging and without consuming the
queue (the periodic caller simply polls again), while a non-interrupt wait
failure also surfaces as "no event" but is logged. -/
theorem wait_error_surfaces_as_no_event (t : DevTable) (num : Int)
    (q : List DispItem) (e : Int)
    (h1 : 1 ≤ num) (h2 : num ≤ (NDEV : Int)) (h3 : (t (slotIdx num)).fds_num ≠ 0) :
    l_xwii_poll t num .interrupted q = (t, PollResult.noEvent, q, false) ∧
    l_xwii_poll t num (.waitErr e) q = (t, PollResult.noEvent, q, true) := by
  refine ⟨?_, ?_⟩ <;> rw [l_xwii_poll, if_pos ⟨h1, h2, h3⟩]

theorem wait_error_surfaces_as_no_event_witness :
    l_xwii_poll openTable 1 .interrupted [] = (openTable, PollResult.noEvent, [], false) :=
  (wait_error_surfaces_as_no_event openTable 1 [] 0 (by decide) (by decide)
    (by decide)).1

/-- A table whose first slot is open with the core and balance-board
interfaces opened, board weights 1, 2, 3, 4 cached, and Classic/Pro
joystick positions (9, 8) and (7, 6) cached. -/
def boardProTable : DevTable :=
  fun _ =>
    { DevHandle.init with
      fds_num := 1,
      iface := ⟨XWII_IFACE_CORE ||| XWII_IFACE_BALANCE_BOARD,
                XWII_IFACE_CORE ||| XWII_IFACE_BALANCE_BOARD⟩,
      pro0 := ⟨9, 8, 0⟩, pro1 := ⟨7, 6, 0⟩,
      board0 := ⟨1, 0, 0⟩, board1 := ⟨2, 0, 0⟩, board2 := ⟨3, 0, 0⟩,
      board3 := ⟨4, 0, 0⟩ }

/-- Like `boardProTable` but with only the balance-board interface opened. -/
def boardOnlyTable : DevTable :=
  fun _ =>
    { DevHandle.init with
      fds_num := 1,
      iface := ⟨XWII_IFACE_BALANCE_BOARD, XWII_IFACE_BALANCE_BOARD⟩,
      board0 := ⟨1, 0, 0⟩, board1 := ⟨2, 0, 0⟩, board2 := ⟨3, 0, 0⟩,
      board3 := ⟨4, 0, 0⟩ }

/-- Claim C7 fails on the code, in both layers.  The Pd-Lua `board` handler
reports the Classic/Pro joystick cache under the `board` selector, not the
balance-board cache, because it calls `xwii_pro_stick`; and the C board
accessor is gated on `XWII_IFACE_CORE`, so with only the balance-board
interface opened it reports nothing even though the board's own capability
bit is set and board samples are cached. -/
theorem board_accessor_bug :
    in_1_board boardProTable 1 = some ("board", [9, 8, 7, 6]) ∧
    l_xwii_board boardProTable 1 = some [1, 2, 3, 4] ∧
    ([9, 8, 7, 6] : List Int) ≠ [1, 2, 3, 4] ∧
    (boardOnlyTable (slotIdx 1)).iface.opened &&& XWII_IFACE_BALANCE_BOARD ≠ 0 ∧
    l_xwii_board boardOnlyTable 1 = none := by
  decide

/-- Claim C8: on an open handle, `l_xwii_set_leds` writes the four LEDs in
order 1..4; when the write for (0-based) index `k` is the first to fail, it
stops at once and reports the failure, leaving the LEDs before `k` set to
their bitmask values and the LEDs from `k` on untouched — no rollback. -/
theorem set_leds_stops_at_first_failure (t : DevTable) (num : Int) (mask : Nat)
    (failsAt : Nat → Bool) (leds : LedVec) (k : Nat)
    (h1 : 1 ≤ num) (h2 : num ≤ (NDEV : Int)) (h3 : (t (slotIdx num)).fds_num ≠ 0)
    (hk : k < 4) (hfail : failsAt k = true)
    (hbefore : ∀ j, j < k → failsAt j = false) :
    (l_xwii_set_leds t num mask failsAt leds).2 = true ∧
    (∀ j, j < k → (l_xwii_set_leds t num mask failsAt leds).1 j = mask.testBit j) ∧
    (∀ j, k ≤ j → (l_xwii_set_leds t num mask failsAt leds).1 j = leds j) := by
  rw [l_xwii_set_leds, if_pos ⟨h1, h2, h3⟩]
  interval_cases k
  · refine ⟨by simp [setLedsLoop, hfail], ?_, ?_⟩
    · intro j hj; omega
    · intro j _; simp [setLedsLoop, hfail]
  · have e0 := hbefore 0 (by omega)
    refine ⟨by simp [setLedsLoop, e0, hfail], ?_, ?_⟩
    · intro j hj
      interval_cases j
      simp [setLedsLoop, e0, hfail]
    · intro j hj
      simp [setLedsLoop, e0, hfail, show j ≠ 0 by omega]
  · have e0 := hbefore 0 (by omega)
    have e1 := hbefore 1 (by omega)
    refine ⟨by simp [setLedsLoop, e0, e1, hfail], ?_, ?_⟩
    · intro j hj
      interval_cases j <;> simp [setLedsLoop, e0, e1, hfail]
    · intro j hj
      simp [setLedsLoop, e0, e1, hfail, show j ≠ 0 by omega, show j ≠ 1 by omega]
  · have e0 := hbefore 0 (by omega)
    have e1 := hbefore 1 (by omega)
    have e2 := hbefore 2 (by omega)
    refine ⟨by simp [setLedsLoop, e0, e1, e2, hfail], ?_, ?_⟩
    · intro j hj
      interval_cases j <;> simp [setLedsLoop, e0, e1, e2, hfail]
    · intro j hj
      simp [setLedsLoop, e0, e1, e2, hfail, show j ≠ 0 by omega,
        show j ≠ 1 by omega, show j ≠ 2 by omega]

/-- A write oracle that fails exactly on the third LED (0-based index 2). -/
def ledFailAtThird : Nat → Bool := fun i => i == 2

/-- The all-off device LED state. -/
def ledsOff : LedVec := fun _ => false

theorem set_leds_stops_at_first_failure_witness :
    (l_xwii_set_leds openTable 1 15 ledFailAtThird ledsOff).2 = true :=
  (set_leds_stops_at_first_failure openTable 1 15 ledFailAtThird ledsOff 2 (by decide)
    (by decide) (by decide) (by decide) (by decide) (by decide)).1

/-- Modelled from the spec for claim C9: on inability to start enumeration,
`list` returns an empty sequence (logging the condition); otherwise the
fully drained sequence. -/
def listSpecEmptyOnFailure (monOk : Bool) (entries : List String) :
    Option (List String) × Bool :=
  if monOk then (some (monitorCollect entries), false) else (some [], true)

/-- Claim C9 is false at a concrete input: when monitor creation fails,
`l_xwii_list` pushes no value at all (the Lua caller sees nil), not the
empty sequence the claim requires. -/
theorem list_returns_nothing_on_monitor_failure :
    (l_xwii_list false []).1 = none ∧
    (listSpecEmptyOnFailure false []).1 = some [] ∧
    (none : Option (List String)) ≠ some [] := by
  decide

theorem monitorCollect_eq (l : List String) : monitorCollect l = l := by
  induction l with
  | nil => rfl
  | cons e rest ih => rw [monitorCollect, ih]

/-- Claim C9 amended: `l_xwii_list` never raises an error; when the
enumeration context cannot be created it logs and returns no value (nil to
the caller) rather than an empty sequence, and otherwise it returns, in
order, every identifier drained from a fresh enumeration context. -/
theorem list_drains_enumeration (entries : List String) :
    l_xwii_list true entries = (some entries, false) ∧
    l_xwii_list false entries = (none, true) := by
  refine ⟨?_, rfl⟩
  rw [l_xwii_list, if_pos rfl, monitorCollect_eq]

theorem list_drains_enumeration_witness :
    l_xwii_list true ["dev0", "dev1"] = (some ["dev0", "dev1"], false) :=
  (list_drains_enumeration ["dev0", "dev1"]).1

/-- Claim C10: for a closed or out-of-range handle, `l_xwii_get_battery`
and `l_xwii_get_leds` return the integer 0 — the same value an open handle
yields for a genuine 0% battery reading or all-off indicators — while a
transport read failure on an open handle yields nil; so a caller cannot
distinguish querying a closed handle from a genuine zero reading. -/
theorem closed_handle_reads_zero (t : DevTable) (num : Int) (readRes : Option Nat)
    (readLed : Nat → Option Bool)
    (hclosed : num < 1 ∨ (NDEV : Int) < num ∨ (t (slotIdx num)).fds_num = 0) :
    l_xwii_get_battery t num readRes = LuaRet.int 0 ∧
    l_xwii_get_leds t num readLed = LuaRet.int 0 ∧
    (∀ (t2 : DevTable) (num2 : Int), 1 ≤ num2 → num2 ≤ (NDEV : Int) →
        (t2 (slotIdx num2)).fds_num ≠ 0 →
        l_xwii_get_battery t2 num2 (some 0) = LuaRet.int 0 ∧
        l_xwii_get_battery t2 num2 none = LuaRet.nil ∧
        l_xwii_get_leds t2 num2 (fun _ => some false) = LuaRet.int 0 ∧
        l_xwii_get_leds t2 num2 (fun _ => none) = LuaRet.nil) ∧
    LuaRet.int 0 ≠ LuaRet.nil := by
  have hneg : ¬(1 ≤ num ∧ num ≤ (NDEV : Int) ∧ (t (slotIdx num)).fds_num ≠ 0) := by
    rintro ⟨a, b, c⟩
    rcases hclosed with h | h | h
    · omega
    · omega
    · exact c h
  refine ⟨?_, ?_, ?_, by decide⟩
  · rw [l_xwii_get_battery.eq_def, if_neg hneg]
  · rw [l_xwii_get_leds, if_neg hneg]
  · intro t2 num2 g1 g2 g3
    refine ⟨?_, ?_, ?_, ?_⟩
    · rw [l_xwii_get_battery, if_pos ⟨g1, g2, g3⟩]
      simp
    · rw [l_xwii_get_battery, if_pos ⟨g1, g2, g3⟩]
    · rw [l_xwii_get_leds, if_pos ⟨g1, g2, g3⟩]
      rfl
    · rw [l_xwii_get_leds, if_pos ⟨g1, g2, g3⟩]
      rfl

theorem closed_handle_reads_zero_witness :
    l_xwii_get_battery zeroTable 1 none = LuaRet.int 0 :=
  (closed_handle_reads_zero zeroTable 1 none (fun _ => none) (by decide)).1

end Xwiilua
